import Mathlib

/-!
Shallow embedding of `scraper/internal/db/db.go` (package `db` of the
statusphere scraper): a persistence client over Postgres via gorm.

The database server is modelled as explicit state (lists of rows); each Go
method becomes a Lean function from that state (plus the possible failure of
the underlying round-trip) to an `Except` result together with the new state.
gorm/Postgres behaviour that the code relies on is embedded from the
libraries' documented semantics: `First` returns `ErrRecordNotFound` on an
empty result, struct `Updates` assigns only non-zero fields, `Create` of an
empty slice returns `ErrEmptySlice`, and `clause.OnConflict` compiles to a
single `INSERT ... ON CONFLICT (deep_link) DO UPDATE SET ...` statement.
-/

set_option autoImplicit false

namespace Statusphere
namespace Db

/-- Go `error` values that flow through `db.go`: a `*pgconn.PgError` carrying
an SQLSTATE code, gorm's sentinel errors `ErrRecordNotFound` and
`ErrEmptySlice`, any other store-reported error, and `errors.Wrap msg err`
from `github.com/pkg/errors`. -/
inductive GoError where
  | pgError (code : String)
  | recordNotFound
  | emptySlice
  | other (msg : String)
  | wrapped (msg : String) (inner : GoError)
deriving DecidableEq, Repr

/-- `errors.As(err, &pgErr)`: unwraps the wrap chain looking for a
`*pgconn.PgError`; returns its code when found. -/
def GoError.asPgError : GoError → Option String
  | .pgError c => some c
  | .wrapped _ e => e.asPgError
  | _ => none

/-- Whether an error is an `errors.Wrap` of some inner error (i.e. carries
added operation context). -/
def GoError.isWrapped : GoError → Bool
  | .wrapped _ _ => true
  | _ => false

/-- A `context.Context` as far as this code can observe it: whether it has
been cancelled. -/
structure Context where
  cancelled : Bool
deriving DecidableEq, Repr

/-- db.go:22-28. Five string fields tagged `envconfig:"POSTGRES_..."`; none
carries a `required:"true"` tag. -/
structure Config where
  Host : String
  Port : String
  User : String
  Password : String
  Database : String
deriving DecidableEq, Repr

/-- `envconfig` field lookup: the prefixed key `PREFIX_TAG` is consulted
first, then the bare tag key; an absent variable leaves the string field at
its zero value `""`. -/
def envLookup (env : String → Option String) (key alt : String) : String :=
  match env key with
  | some v => v
  | none => (env alt).getD ""

/-- db.go:30-34: `envconfig.Process("STATUSPHERE", &config)`. Every field of
`Config` is an optional string, so `Process` fills absent variables with `""`
and returns a nil error; processing itself cannot fail for this struct. -/
def getConfigFromEnvironment (env : String → Option String) : Except GoError Config :=
  .ok
    { Host := envLookup env "STATUSPHERE_POSTGRES_HOST" "POSTGRES_HOST"
      Port := envLookup env "STATUSPHERE_POSTGRES_PORT" "POSTGRES_PORT"
      User := envLookup env "STATUSPHERE_POSTGRES_USER" "POSTGRES_USER"
      Password := envLookup env "STATUSPHERE_POSTGRES_PASSWORD" "POSTGRES_PASSWORD"
      Database := envLookup env "STATUSPHERE_POSTGRES_DATABASE" "POSTGRES_DATABASE" }

/-- Modelled from the spec: `api.StatusPage` (import
`.../scraper/api`, not under src/). Spec section 3: a `URL` string that is the
unique lookup key, plus provider/page metadata (name, last-checked state),
exposed as plain fields. All fields are value fields whose Go zero value is
the empty string. -/
structure StatusPage where
  URL : String
  Name : String
  LastChecked : String
deriving DecidableEq, Repr

/-- Modelled from the spec: `api.Incident` (import `.../scraper/api`, not
under src/). Spec section 3: a unique `DeepLink`, the owning
`StatusPageURL`, and the attributes title, components, events, start time,
end time, description, impact — exactly the columns named in the upsert of
db.go:163. Column values are modelled as their serialized string form. -/
structure Incident where
  DeepLink : String
  Title : String
  Components : String
  Events : String
  StartTime : String
  EndTime : String
  Description : String
  Impact : String
  StatusPageURL : String
deriving DecidableEq, Repr

/-- db.go:55: outcome of `db.Exec("CREATE DATABASE <name>")` against a server
holding `databases`: an injected round-trip failure is returned as-is;
otherwise Postgres answers SQLSTATE 42P04 (duplicate_database) when the
database already exists, and success (recording the new database) when it
does not. -/
def execCreateDatabase (execFail : Option GoError) (databases : List String)
    (name : String) : Option GoError × List String :=
  match execFail with
  | some e => (some e, databases)
  | none =>
    if databases.contains name then (some (GoError.pgError "42P04"), databases)
    else (none, databases ++ [name])

/-- db.go:56-69: the error handling after `CREATE DATABASE`. A nil error, or
a `PgError` whose code is "42P04" (database already exists), is treated as
success; any other error is returned wrapped as
"failed to create postgres database". -/
def handleCreateDatabaseError (err : Option GoError) : Except GoError Unit :=
  match err with
  | none => .ok ()
  | some e =>
    if e.asPgError = some "42P04" then .ok ()
    else .error (GoError.wrapped "failed to create postgres database" e)

/-- db.go:41-92: `NewDbClientFromEnvironment`. Resolves `Config` from the
environment; connects at server level (outcome `connectFail`); issues
`CREATE DATABASE` and applies `handleCreateDatabaseError`; reconnects naming
the database (outcome `connectDbFail`). Returns the server's database list
after the call (the client handle itself holds no further state of
interest). -/
def NewDbClientFromEnvironment (env : String → Option String)
    (connectFail execFail : Option GoError) (databases : List String)
    (connectDbFail : Option GoError) : Except GoError (List String) :=
  match getConfigFromEnvironment env with
  | .error e => .error e
  | .ok config =>
    match connectFail with
    | some e => .error (GoError.wrapped "failed to connect to postgres" e)
    | none =>
      let r := execCreateDatabase execFail databases config.Database
      match handleCreateDatabaseError r.1 with
      | .error e => .error e
      | .ok _ =>
        match connectDbFail with
        | some e => .error (GoError.wrapped "failed to connect to postgres" e)
        | none => .ok r.2

/-- db.go:97-114: `AutoMigrate`. The `CREATE SCHEMA IF NOT EXISTS` result is
discarded (db.go:99); a failure migrating `status_page` is wrapped and
returned; then a failure migrating `incidents` is wrapped and returned; nil
otherwise. The `ctx` argument is never consulted by the body. -/
def AutoMigrate (ctx : Context) (schemaFail migrateStatusPageFail migrateIncidentsFail : Option GoError) :
    Option GoError :=
  let _ := ctx
  let _ := schemaFail
  match migrateStatusPageFail with
  | some e => some (GoError.wrapped "failed to auto-migrate status_page table" e)
  | none =>
    match migrateIncidentsFail with
    | some e => some (GoError.wrapped "failed to auto-migrate incidents table" e)
    | none => none

/-- db.go:116-123: `GetAllStatusPages`. `Find` into a slice; on a store error
the body does `return nil, result.Error` (the error value untouched);
otherwise every row is returned. `ctx` is never consulted. -/
def GetAllStatusPages (ctx : Context) (fail : Option GoError)
    (table : List StatusPage) : Except GoError (List StatusPage) :=
  let _ := ctx
  match fail with
  | some e => .error e
  | none => .ok table

/-- db.go:125-132: `GetStatusPage`. `Where("url = ?", url).First(...)`: the
first row whose url column equals `url`, or gorm's `ErrRecordNotFound` when
none matches; either error is returned untouched (`return nil, result.Error`).
`ctx` is never consulted. -/
def GetStatusPage (ctx : Context) (fail : Option GoError)
    (table : List StatusPage) (url : String) : Except GoError StatusPage :=
  let _ := ctx
  match fail with
  | some e => .error e
  | none =>
    match table.find? (fun r => r.URL == url) with
    | some r => .ok r
    | none => .error GoError.recordNotFound

/-- gorm struct `Updates` semantics for a matched row: every non-zero field
of `page` is assigned; zero-valued (empty string) fields of `page` leave the
row's value in place. -/
def updatesNonZero (row page : StatusPage) : StatusPage :=
  { URL := if page.URL = "" then row.URL else page.URL
    Name := if page.Name = "" then row.Name else page.Name
    LastChecked := if page.LastChecked = "" then row.LastChecked else page.LastChecked }

/-- db.go:134-140: `UpdateStatusPage`.
`Where("url = ?", statusPage.URL).Updates(&statusPage)`: assigns the non-zero
fields of `statusPage` to every row whose url equals `statusPage.URL`;
matching zero rows leaves `result.Error` nil, so the body returns success.
A store error is returned untouched. `ctx` is never consulted. The new table
state is returned alongside. -/
def UpdateStatusPage (ctx : Context) (fail : Option GoError)
    (table : List StatusPage) (statusPage : StatusPage) :
    Except GoError (List StatusPage) :=
  let _ := ctx
  match fail with
  | some e => .error e
  | none =>
    .ok (table.map (fun r => if r.URL == statusPage.URL then updatesNonZero r statusPage else r))

/-- db.go:142-148: `InsertStatusPage`. `Create(&statusPage)`: appends a row;
Postgres rejects a duplicate url with SQLSTATE 23505 (unique_violation),
which the body returns untouched. `ctx` is never consulted. -/
def InsertStatusPage (ctx : Context) (fail : Option GoError)
    (table : List StatusPage) (statusPage : StatusPage) :
    Except GoError (List StatusPage) :=
  let _ := ctx
  match fail with
  | some e => .error e
  | none =>
    if table.any (fun r => r.URL == statusPage.URL) then
      .error (GoError.pgError "23505")
    else .ok (table ++ [statusPage])

/-- db.go:150-157: `GetIncidents`.
`Where("status_page_url = ?", statusPageUrl).Find(...)`: every incident row
whose status_page_url equals the argument; a store error is returned
untouched. `ctx` is never consulted. -/
def GetIncidents (ctx : Context) (fail : Option GoError)
    (table : List Incident) (statusPageUrl : String) :
    Except GoError (List Incident) :=
  let _ := ctx
  match fail with
  | some e => .error e
  | none => .ok (table.filter (fun r => r.StatusPageURL == statusPageUrl))

/-- db.go:163: `clause.AssignmentColumns` of the conflict clause — on a
deep_link conflict, exactly the columns title, components, events,
start_time, end_time, description, impact, status_page_url of the existing
row are assigned from the incoming (excluded) row; deep_link is not in the
assignment list and keeps the existing row's value. -/
def applyAssignmentColumns (row incoming : Incident) : Incident :=
  { row with
    Title := incoming.Title
    Components := incoming.Components
    Events := incoming.Events
    StartTime := incoming.StartTime
    EndTime := incoming.EndTime
    Description := incoming.Description
    Impact := incoming.Impact
    StatusPageURL := incoming.StatusPageURL }

/-- The effect of one row of the `INSERT ... ON CONFLICT (deep_link) DO
UPDATE` statement: if some existing row has the incoming deep_link, that row
receives the assignment columns; otherwise the incoming row is inserted. -/
def upsertOne (table : List Incident) (inc : Incident) : List Incident :=
  if table.any (fun r => r.DeepLink == inc.DeepLink) then
    table.map (fun r => if r.DeepLink == inc.DeepLink then applyAssignmentColumns r inc else r)
  else table ++ [inc]

/-- db.go:159-170: `CreateOrUpdateIncidents`. gorm's `Create` of an empty
slice fails client-side with `ErrEmptySlice`. Otherwise the single
`INSERT ... ON CONFLICT DO UPDATE` statement runs: Postgres rejects a batch
whose rows conflict with each other (two equal deep_links) with SQLSTATE
21000 ("ON CONFLICT DO UPDATE command cannot affect row a second time");
otherwise each row is inserted or updates its conflict target, atomically as
one statement. A store error is returned untouched (`return result.Error`).
`ctx` is never consulted. The new table state is returned alongside. -/
def CreateOrUpdateIncidents (ctx : Context) (fail : Option GoError)
    (table incidents : List Incident) : Except GoError (List Incident) :=
  let _ := ctx
  if incidents.isEmpty then .error GoError.emptySlice
  else
    match fail with
    | some e => .error e
    | none =>
      if (incidents.map Incident.DeepLink).Nodup then
        .ok (incidents.foldl upsertOne table)
      else .error (GoError.pgError "21000")

/-- The deep_link column of a table, in row order. -/
def deepLinks (table : List Incident) : List String :=
  table.map Incident.DeepLink

/-- Row lookup by deep_link. -/
def findByDeepLink (table : List Incident) (dl : String) : Option Incident :=
  table.find? (fun r => r.DeepLink == dl)

/-! Lemmas about the upsert statement's effect on the incidents table. -/

@[simp]
theorem DeepLink_applyAssignmentColumns (row incoming : Incident) :
    (applyAssignmentColumns row incoming).DeepLink = row.DeepLink := rfl

theorem find?_map_update (t : List Incident) (inc : Incident) (dl : String) :
    (t.map (fun r => if r.DeepLink == inc.DeepLink then applyAssignmentColumns r inc else r)).find?
        (fun r => r.DeepLink == dl)
      = (t.find? (fun r => r.DeepLink == dl)).map
          (fun old => if old.DeepLink == inc.DeepLink then applyAssignmentColumns old inc else old) := by
  induction t with
  | nil => rfl
  | cons r t ih =>
    have hkey : (if r.DeepLink == inc.DeepLink then applyAssignmentColumns r inc else r).DeepLink
        = r.DeepLink := by split <;> rfl
    cases hB : (r.DeepLink == dl)
    · simp only [List.map_cons, List.find?_cons, hkey, hB]
      exact ih
    · simp only [List.map_cons, List.find?_cons, hkey, hB, Option.map_some']

theorem deepLinks_map_update (t : List Incident) (inc : Incident) :
    deepLinks (t.map (fun r => if r.DeepLink == inc.DeepLink then applyAssignmentColumns r inc else r))
      = deepLinks t := by
  induction t with
  | nil => rfl
  | cons r t ih =>
    have hkey : (if r.DeepLink == inc.DeepLink then applyAssignmentColumns r inc else r).DeepLink
        = r.DeepLink := by split <;> rfl
    simp only [deepLinks, List.map_cons] at *
    rw [hkey, ih]

theorem any_key_iff (t : List Incident) (k : String) :
    t.any (fun r => r.DeepLink == k) = true ↔ k ∈ deepLinks t := by
  simp [deepLinks, List.any_eq_true, List.mem_map]

theorem findByDeepLink_isSome_key (t : List Incident) (dl : String) (old : Incident)
    (h : findByDeepLink t dl = some old) : old.DeepLink = dl := by
  rw [findByDeepLink] at h
  have hp := List.find?_some h
  simpa using hp

theorem findByDeepLink_eq_none_of_any_false (t : List Incident) (k : String)
    (h : t.any (fun r => r.DeepLink == k) = false) : findByDeepLink t k = none := by
  rw [findByDeepLink, List.find?_eq_none]
  exact List.any_eq_false.mp h

theorem findByDeepLink_upsertOne (t : List Incident) (inc : Incident) (dl : String) :
    findByDeepLink (upsertOne t inc) dl =
      if dl = inc.DeepLink then
        some ((findByDeepLink t dl).elim inc (fun old => applyAssignmentColumns old inc))
      else findByDeepLink t dl := by
  simp only [findByDeepLink, upsertOne]
  by_cases hany : t.any (fun r => r.DeepLink == inc.DeepLink) = true
  · simp only [hany, if_true]
    rw [find?_map_update t inc dl]
    by_cases hdl : dl = inc.DeepLink
    · rw [if_pos hdl]
      cases hfind : t.find? (fun r => r.DeepLink == dl) with
      | none =>
        exfalso
        obtain ⟨r, hr, hk⟩ := List.any_eq_true.mp hany
        rw [List.find?_eq_none] at hfind
        exact hfind r hr (by rw [hdl]; exact hk)
      | some old =>
        have hk : old.DeepLink = dl := by simpa using List.find?_some hfind
        have hcond : (old.DeepLink == inc.DeepLink) = true := by
          simp [hk, hdl]
        simp only [Option.map_some', Option.elim_some]
        rw [if_pos hcond]
    · rw [if_neg hdl]
      cases hfind : t.find? (fun r => r.DeepLink == dl) with
      | none => simp
      | some old =>
        have hk : old.DeepLink = dl := by simpa using List.find?_some hfind
        have hcond : (old.DeepLink == inc.DeepLink) = false := by
          rw [hk]
          exact beq_eq_false_iff_ne.mpr hdl
        simp only [Option.map_some']
        rw [if_neg (by simp [hcond])]
  · have hany' : t.any (fun r => r.DeepLink == inc.DeepLink) = false :=
      Bool.eq_false_iff.mpr hany
    simp only [hany', Bool.false_eq_true, if_false]
    rw [List.find?_append]
    by_cases hdl : dl = inc.DeepLink
    · rw [if_pos hdl]
      have hnone : t.find? (fun r => r.DeepLink == dl) = none := by
        rw [List.find?_eq_none]
        intro r hr
        rw [hdl]
        exact List.any_eq_false.mp hany' r hr
      have hsingle : (inc.DeepLink == dl) = true := by simp [hdl]
      simp [hnone, List.find?_cons, hsingle]
    · rw [if_neg hdl]
      have hsingle : (inc.DeepLink == dl) = false :=
        beq_eq_false_iff_ne.mpr (fun h => hdl h.symm)
      simp [List.find?_cons, hsingle]

theorem mem_deepLinks_upsertOne (t : List Incident) (inc : Incident) (dl : String) :
    dl ∈ deepLinks (upsertOne t inc) ↔ dl ∈ deepLinks t ∨ dl = inc.DeepLink := by
  unfold upsertOne
  by_cases hany : t.any (fun r => r.DeepLink == inc.DeepLink) = true
  · simp only [hany, if_true]
    rw [deepLinks_map_update]
    have hmem : inc.DeepLink ∈ deepLinks t := (any_key_iff t inc.DeepLink).mp hany
    constructor
    · exact Or.inl
    · rintro (h | rfl)
      · exact h
      · exact hmem
  · have hany' : t.any (fun r => r.DeepLink == inc.DeepLink) = false :=
      Bool.eq_false_iff.mpr hany
    simp only [hany', Bool.false_eq_true, if_false]
    have : deepLinks (t ++ [inc]) = deepLinks t ++ [inc.DeepLink] := by simp [deepLinks]
    rw [this, List.mem_append, List.mem_singleton]

theorem nodup_deepLinks_upsertOne (t : List Incident) (inc : Incident)
    (h : (deepLinks t).Nodup) : (deepLinks (upsertOne t inc)).Nodup := by
  unfold upsertOne
  by_cases hany : t.any (fun r => r.DeepLink == inc.DeepLink) = true
  · simp only [hany, if_true]
    rw [deepLinks_map_update]
    exact h
  · have hany' : t.any (fun r => r.DeepLink == inc.DeepLink) = false :=
      Bool.eq_false_iff.mpr hany
    have hnot : inc.DeepLink ∉ deepLinks t := fun hm => hany ((any_key_iff t _).mpr hm)
    simp only [hany', Bool.false_eq_true, if_false]
    have : deepLinks (t ++ [inc]) = deepLinks t ++ [inc.DeepLink] := by
      simp [deepLinks]
    rw [this]
    simp [List.nodup_append, h, hnot]

theorem findByDeepLink_foldl_of_not_mem (batch : List Incident) (t : List Incident) (dl : String)
    (h : ∀ b ∈ batch, b.DeepLink ≠ dl) :
    findByDeepLink (batch.foldl upsertOne t) dl = findByDeepLink t dl := by
  induction batch generalizing t with
  | nil => rfl
  | cons b batch ih =>
    rw [List.foldl_cons, ih _ (fun x hx => h x (List.mem_cons_of_mem b hx))]
    rw [findByDeepLink_upsertOne]
    rw [if_neg]
    exact fun hdl => h b (List.mem_cons_self b batch) hdl.symm

theorem mem_deepLinks_foldl (batch : List Incident) (t : List Incident) (dl : String) :
    dl ∈ deepLinks (batch.foldl upsertOne t) ↔ dl ∈ deepLinks t ∨ dl ∈ deepLinks batch := by
  induction batch generalizing t with
  | nil => simp [deepLinks]
  | cons b batch ih =>
    rw [List.foldl_cons, ih, mem_deepLinks_upsertOne]
    have : deepLinks (b :: batch) = b.DeepLink :: deepLinks batch := rfl
    rw [this, List.mem_cons]
    tauto

theorem nodup_deepLinks_foldl (batch : List Incident) (t : List Incident)
    (h : (deepLinks t).Nodup) : (deepLinks (batch.foldl upsertOne t)).Nodup := by
  induction batch generalizing t with
  | nil => exact h
  | cons b batch ih => exact ih _ (nodup_deepLinks_upsertOne _ _ h)

theorem CreateOrUpdateIncidents_ok_iff (ctx : Context) (table incidents t' : List Incident) :
    CreateOrUpdateIncidents ctx .none table incidents = .ok t' ↔
      incidents ≠ [] ∧ (incidents.map Incident.DeepLink).Nodup ∧
        t' = incidents.foldl upsertOne table := by
  cases incidents with
  | nil => simp [CreateOrUpdateIncidents]
  | cons i rest =>
    simp only [CreateOrUpdateIncidents, List.isEmpty_cons, Bool.false_eq_true, if_false]
    by_cases hnd : ((i :: rest).map Incident.DeepLink).Nodup
    · rw [if_pos hnd]
      simp only [Except.ok.injEq]
      constructor
      · intro h
        exact ⟨List.cons_ne_nil i rest, hnd, h.symm⟩
      · rintro ⟨-, -, h⟩
        exact h.symm
    · rw [if_neg hnd]
      constructor
      · intro h
        exact Except.noConfusion h
      · rintro ⟨-, hnd2, -⟩
        exact absurd hnd2 hnd

theorem countP_key_eq_count (t : List Incident) (dl : String) :
    t.countP (fun r => r.DeepLink == dl) = (deepLinks t).count dl := by
  rw [deepLinks, List.count_eq_countP, List.countP_map]
  rfl

theorem length_filter_key (t : List Incident) (p : String → Bool) :
    (t.filter (fun r => p r.DeepLink)).length = ((deepLinks t).filter p).length := by
  induction t with
  | nil => rfl
  | cons r t ih =>
    cases hp : p r.DeepLink <;>
      simp [deepLinks, List.filter_cons, hp] at * <;> omega

theorem nodup_length_filter_eq (K bk : List String)
    (hK : K.Nodup) (hbk : bk.Nodup) (hmem : ∀ x, x ∈ K ↔ x ∈ bk) :
    K.length = bk.length := by
  have hfs : K.toFinset = bk.toFinset := by
    ext x
    simp [List.mem_toFinset, hmem]
  calc K.length = K.toFinset.card := (List.toFinset_card_of_nodup hK).symm
    _ = bk.toFinset.card := by rw [hfs]
    _ = bk.length := List.toFinset_card_of_nodup hbk

/-! Claim theorems. -/

/-- C1: for every batch passed to `CreateOrUpdateIncidents`, an incident whose
deep_link already has a row causes exactly the columns title, components,
events, start_time, end_time, description, impact and status_page_url of that
row to be replaced by the incoming incident's values, while every other
column of the row — notably deep_link itself — is left unchanged (the
structure update below touches precisely the eight assignment columns and
keeps `old.DeepLink`). -/
theorem C1_upsert_replaces_exact_column_set
    (ctx : Context) (table batch t' : List Incident) (inc old : Incident)
    (hmem : inc ∈ batch)
    (hok : CreateOrUpdateIncidents ctx .none table batch = .ok t')
    (hold : findByDeepLink table inc.DeepLink = some old) :
    findByDeepLink t' inc.DeepLink =
      some { old with
             Title := inc.Title
             Components := inc.Components
             Events := inc.Events
             StartTime := inc.StartTime
             EndTime := inc.EndTime
             Description := inc.Description
             Impact := inc.Impact
             StatusPageURL := inc.StatusPageURL } := by
  obtain ⟨hne, hnd, ht'⟩ := (CreateOrUpdateIncidents_ok_iff ctx table batch t').mp hok
  obtain ⟨l1, l2, rfl⟩ := List.append_of_mem hmem
  subst ht'
  have hmap : (l1 ++ inc :: l2).map Incident.DeepLink
      = l1.map Incident.DeepLink ++ inc.DeepLink :: l2.map Incident.DeepLink := by simp
  rw [hmap, List.nodup_append] at hnd
  obtain ⟨-, hnd2, hdisj⟩ := hnd
  rw [List.nodup_cons] at hnd2
  obtain ⟨hnotl2, -⟩ := hnd2
  have hnotl1 : inc.DeepLink ∉ l1.map Incident.DeepLink := fun h =>
    hdisj h (List.mem_cons_self _ _)
  rw [List.foldl_append, List.foldl_cons]
  rw [findByDeepLink_foldl_of_not_mem l2 _ inc.DeepLink
      (fun b hb heq => hnotl2 (heq ▸ List.mem_map_of_mem Incident.DeepLink hb))]
  rw [findByDeepLink_upsertOne, if_pos rfl]
  rw [findByDeepLink_foldl_of_not_mem l1 table inc.DeepLink
      (fun b hb heq => hnotl1 (heq ▸ List.mem_map_of_mem Incident.DeepLink hb))]
  rw [hold]
  rfl

/-- C1 witness: a concrete two-call run exercising the update branch. -/
theorem C1_upsert_replaces_exact_column_set_witness :
    findByDeepLink
        [Incident.mk "dl" "t2" "c2" "e2" "s2" "f2" "d2" "i2" "u2"] "dl"
      = some (Incident.mk "dl" "t2" "c2" "e2" "s2" "f2" "d2" "i2" "u2") :=
  C1_upsert_replaces_exact_column_set ⟨false⟩
    [Incident.mk "dl" "t1" "c1" "e1" "s1" "f1" "d1" "i1" "u1"]
    [Incident.mk "dl" "t2" "c2" "e2" "s2" "f2" "d2" "i2" "u2"]
    [Incident.mk "dl" "t2" "c2" "e2" "s2" "f2" "d2" "i2" "u2"]
    (Incident.mk "dl" "t2" "c2" "e2" "s2" "f2" "d2" "i2" "u2")
    (Incident.mk "dl" "t1" "c1" "e1" "s1" "f1" "d1" "i1" "u1")
    (List.mem_cons_self _ _) (by rfl) (by rfl)

/-- C2: the incidents table keeps at most one row per deep_link and
`CreateOrUpdateIncidents` preserves this: (i) the deep_link column of the
table stays duplicate-free after every successful call; (ii) two successive
calls with the same deep_link but a different title leave exactly one row for
that deep_link, carrying the second call's title; (iii) a successful batch of
N incidents with distinct deep_links, some new and some already present,
leaves exactly N rows for those deep_links. -/
theorem C2_at_most_one_row_per_deeplink
    (ctx : Context) (table : List Incident)
    (hnd : (deepLinks table).Nodup) :
    (∀ batch t', CreateOrUpdateIncidents ctx .none table batch = .ok t' →
        (deepLinks t').Nodup) ∧
    (∀ inc1 inc2 t1 t2, inc1.DeepLink = inc2.DeepLink → inc1.Title ≠ inc2.Title →
        CreateOrUpdateIncidents ctx .none table [inc1] = .ok t1 →
        CreateOrUpdateIncidents ctx .none t1 [inc2] = .ok t2 →
        t2.countP (fun r => r.DeepLink == inc1.DeepLink) = 1 ∧
        ∃ r, findByDeepLink t2 inc1.DeepLink = some r ∧ r.Title = inc2.Title) ∧
    (∀ batch t', CreateOrUpdateIncidents ctx .none table batch = .ok t' →
        (t'.filter (fun r => (batch.map Incident.DeepLink).contains r.DeepLink)).length
          = batch.length) := by
  refine ⟨?_, ?_, ?_⟩
  · intro batch t' hok
    obtain ⟨-, -, ht'⟩ := (CreateOrUpdateIncidents_ok_iff ctx table batch t').mp hok
    subst ht'
    exact nodup_deepLinks_foldl batch table hnd
  · intro inc1 inc2 t1 t2 hdl htitle hok1 hok2
    obtain ⟨-, -, ht1⟩ := (CreateOrUpdateIncidents_ok_iff ctx table [inc1] t1).mp hok1
    obtain ⟨-, -, ht2⟩ := (CreateOrUpdateIncidents_ok_iff ctx t1 [inc2] t2).mp hok2
    have ht1' : t1 = upsertOne table inc1 := by simpa using ht1
    have ht2' : t2 = upsertOne t1 inc2 := by simpa using ht2
    subst ht1' ht2'
    have hnd2 : (deepLinks (upsertOne (upsertOne table inc1) inc2)).Nodup :=
      nodup_deepLinks_upsertOne _ _ (nodup_deepLinks_upsertOne _ _ hnd)
    have hmem2 : inc1.DeepLink ∈ deepLinks (upsertOne (upsertOne table inc1) inc2) := by
      rw [mem_deepLinks_upsertOne]
      exact Or.inr hdl
    constructor
    · rw [countP_key_eq_count]
      exact List.count_eq_one_of_mem hnd2 hmem2
    · rw [findByDeepLink_upsertOne, if_pos hdl]
      cases hfind : findByDeepLink (upsertOne table inc1) inc1.DeepLink with
      | none => exact ⟨inc2, rfl, rfl⟩
      | some o => exact ⟨applyAssignmentColumns o inc2, rfl, rfl⟩
  · intro batch t' hok
    obtain ⟨-, hbk, ht'⟩ := (CreateOrUpdateIncidents_ok_iff ctx table batch t').mp hok
    subst ht'
    have hndT : (deepLinks (batch.foldl upsertOne table)).Nodup :=
      nodup_deepLinks_foldl batch table hnd
    rw [length_filter_key (List.foldl upsertOne table batch)
        (fun dl => (batch.map Incident.DeepLink).contains dl)]
    have hbatchlen : (batch.map Incident.DeepLink).length = batch.length :=
      List.length_map batch Incident.DeepLink
    rw [← hbatchlen]
    apply nodup_length_filter_eq _ _ (List.Nodup.filter _ hndT) hbk
    intro x
    constructor
    · intro hx
      have hx' := List.mem_filter.mp hx
      simpa using hx'.2
    · intro hx
      refine List.mem_filter.mpr ⟨?_, by simpa using hx⟩
      rw [mem_deepLinks_foldl]
      exact Or.inr (by simpa [deepLinks] using hx)

/-- C2 witness: concrete runs exercising all three conjuncts' hypotheses. -/
theorem C2_at_most_one_row_per_deeplink_witness :
    (List.countP (fun r => r.DeepLink == "dl")
        [Incident.mk "dl" "t2" "c2" "e2" "s2" "f2" "d2" "i2" "u2"] = 1 ∧
      ∃ r, findByDeepLink
          [Incident.mk "dl" "t2" "c2" "e2" "s2" "f2" "d2" "i2" "u2"] "dl"
        = some r ∧ r.Title = "t2") := by
  have h := (C2_at_most_one_row_per_deeplink ⟨false⟩ [] (by decide)).2.1
    (Incident.mk "dl" "t1" "c1" "e1" "s1" "f1" "d1" "i1" "u1")
    (Incident.mk "dl" "t2" "c2" "e2" "s2" "f2" "d2" "i2" "u2")
    [Incident.mk "dl" "t1" "c1" "e1" "s1" "f1" "d1" "i1" "u1"]
    [Incident.mk "dl" "t2" "c2" "e2" "s2" "f2" "d2" "i2" "u2"]
    rfl (by decide) (by rfl) (by rfl)
  exact h

/-- C3: `GetStatusPage` returns the single row matching `url` when one
exists; it returns gorm's record-not-found error (the spec's
`NotFoundError`) when no row matches; and it never returns success without a
matching row from the table. -/
theorem C3_get_status_page_found_or_not_found
    (ctx : Context) (table : List StatusPage) (url : String) :
    (∀ r, r ∈ table → r.URL = url →
        (∀ q, q ∈ table → q.URL = url → q = r) →
        GetStatusPage ctx .none table url = .ok r) ∧
    ((∀ r, r ∈ table → r.URL ≠ url) →
        GetStatusPage ctx .none table url = .error GoError.recordNotFound) ∧
    (∀ r, GetStatusPage ctx .none table url = .ok r → r ∈ table ∧ r.URL = url) := by
  refine ⟨?_, ?_, ?_⟩
  · intro r hr hurl huniq
    cases hf : table.find? (fun p => p.URL == url) with
    | none =>
      exfalso
      rw [List.find?_eq_none] at hf
      exact hf r hr (by simpa using hurl)
    | some q =>
      have hqmem : q ∈ table := List.mem_of_find?_eq_some hf
      have hqurl : q.URL = url := by simpa using List.find?_some hf
      have : q = r := huniq q hqmem hqurl
      subst this
      simp [GetStatusPage, hf]
  · intro h
    have hf : table.find? (fun p => p.URL == url) = none := by
      rw [List.find?_eq_none]
      intro p hp
      simpa using h p hp
    simp [GetStatusPage, hf]
  · intro r hok
    cases hf : table.find? (fun p => p.URL == url) with
    | none => simp [GetStatusPage, hf] at hok
    | some q =>
      simp only [GetStatusPage, hf, Except.ok.injEq] at hok
      subst hok
      exact ⟨List.mem_of_find?_eq_some hf, by simpa using List.find?_some hf⟩

/-- C3 witness: a present url is found; an absent one reports not-found. -/
theorem C3_get_status_page_witness :
    GetStatusPage ⟨false⟩ .none [StatusPage.mk "u" "n" "c"] "u"
        = .ok (StatusPage.mk "u" "n" "c") ∧
      GetStatusPage ⟨false⟩ .none [] "u" = .error GoError.recordNotFound := by
  constructor
  · exact (C3_get_status_page_found_or_not_found ⟨false⟩ [StatusPage.mk "u" "n" "c"] "u").1
      (StatusPage.mk "u" "n" "c") (List.mem_cons_self _ _) rfl
      (fun q hq _ => List.mem_singleton.mp hq)
  · exact (C3_get_status_page_found_or_not_found ⟨false⟩ [] "u").2.1
      (fun r hr => absurd hr (List.not_mem_nil r))

/-- C4 counterexample: a store error surfaces from `GetAllStatusPages`
exactly as the store produced it — it is not wrapped with any operation
context, contradicting the claim that every store error is wrapped before
being returned. -/
theorem C4_counterexample_error_not_wrapped :
    GetAllStatusPages ⟨false⟩ (some (GoError.other "connection reset")) []
        = .error (GoError.other "connection reset") ∧
      (GoError.other "connection reset").isWrapped = false :=
  ⟨rfl, rfl⟩

/-- C4 (amended): each of the six read/write operations propagates a store
error to the caller unchanged — in particular without wrapping it with
operation context — and no error is swallowed; wrapping happens only in
construction (`NewDbClientFromEnvironment`) and migration (`AutoMigrate`). -/
theorem C4_amended_crud_errors_propagate_unwrapped
    (ctx : Context) (e : GoError) :
    (∀ spTable, GetAllStatusPages ctx (some e) spTable = .error e) ∧
    (∀ spTable url, GetStatusPage ctx (some e) spTable url = .error e) ∧
    (∀ spTable page, UpdateStatusPage ctx (some e) spTable page = .error e) ∧
    (∀ spTable page, InsertStatusPage ctx (some e) spTable page = .error e) ∧
    (∀ incTable url, GetIncidents ctx (some e) incTable url = .error e) ∧
    (∀ incTable incidents, incidents ≠ [] →
        CreateOrUpdateIncidents ctx (some e) incTable incidents = .error e) := by
  refine ⟨fun _ => rfl, fun _ _ => rfl, fun _ _ => rfl, fun _ _ => rfl, fun _ _ => rfl, ?_⟩
  intro incTable incidents hne
  simp only [CreateOrUpdateIncidents]
  rw [if_neg (by simpa [List.isEmpty_iff] using hne)]

/-- C4 witness for the amended claim, at a concrete non-empty batch. -/
theorem C4_amended_witness :
    CreateOrUpdateIncidents ⟨false⟩ (some (GoError.other "boom")) []
        [Incident.mk "dl" "t" "c" "e" "s" "f" "d" "i" "u"]
      = .error (GoError.other "boom") :=
  (C4_amended_crud_errors_propagate_unwrapped ⟨false⟩ (GoError.other "boom")).2.2.2.2.2
    [] [Incident.mk "dl" "t" "c" "e" "s" "f" "d" "i" "u"] (List.cons_ne_nil _ _)

/-- C5 counterexample: with every environment variable absent, configuration
processing succeeds with empty-string values instead of failing with a
configuration error, and construction proceeds past configuration into the
connection step (whose failure is reported as a wrapped connection error). -/
theorem C5_counterexample_missing_env_not_config_error :
    getConfigFromEnvironment (fun _ => none) = .ok (Config.mk "" "" "" "" "") ∧
      NewDbClientFromEnvironment (fun _ => none)
          (some (GoError.other "dial failed")) none [] none
        = .error (GoError.wrapped "failed to connect to postgres"
            (GoError.other "dial failed")) :=
  ⟨rfl, rfl⟩

/-- C5 (amended): `NewDbClientFromEnvironment` reads the five configuration
values (host, port, user, password, database name) from the environment
under the STATUSPHERE prefix, but no field is marked required: a present
variable is taken verbatim, an absent one is left as the empty string, and
configuration processing always succeeds — missing values never fail
construction with a configuration error. -/
theorem C5_amended_config_never_fails (env : String → Option String) :
    ∃ cfg : Config, getConfigFromEnvironment env = .ok cfg ∧
      (∀ v, env "STATUSPHERE_POSTGRES_HOST" = some v → cfg.Host = v) ∧
      (∀ v, env "STATUSPHERE_POSTGRES_PORT" = some v → cfg.Port = v) ∧
      (∀ v, env "STATUSPHERE_POSTGRES_USER" = some v → cfg.User = v) ∧
      (∀ v, env "STATUSPHERE_POSTGRES_PASSWORD" = some v → cfg.Password = v) ∧
      (∀ v, env "STATUSPHERE_POSTGRES_DATABASE" = some v → cfg.Database = v) ∧
      ((∀ k, env k = none) → cfg = Config.mk "" "" "" "" "") := by
  refine ⟨_, rfl, ?_, ?_, ?_, ?_, ?_, ?_⟩
  · intro v hv; simp [envLookup, hv]
  · intro v hv; simp [envLookup, hv]
  · intro v hv; simp [envLookup, hv]
  · intro v hv; simp [envLookup, hv]
  · intro v hv; simp [envLookup, hv]
  · intro h; simp [envLookup, h]

/-- C5 witness for the amended claim, at the empty environment. -/
theorem C5_amended_witness :
    ∃ cfg : Config, getConfigFromEnvironment (fun _ => none) = .ok cfg ∧
      cfg = Config.mk "" "" "" "" "" := by
  obtain ⟨cfg, hok, -, -, -, -, -, hempty⟩ := C5_amended_config_never_fails (fun _ => none)
  exact ⟨cfg, hok, hempty (fun _ => rfl)⟩

theorem NewDbClient_healthy_ok (env : String → Option String) (databases : List String) :
    NewDbClientFromEnvironment env none none databases none
      = .ok (if (envLookup env "STATUSPHERE_POSTGRES_DATABASE" "POSTGRES_DATABASE") ∈ databases
             then databases
             else databases
               ++ [envLookup env "STATUSPHERE_POSTGRES_DATABASE" "POSTGRES_DATABASE"]) := by
  by_cases hm : (envLookup env "STATUSPHERE_POSTGRES_DATABASE" "POSTGRES_DATABASE") ∈ databases
  · simp [NewDbClientFromEnvironment, getConfigFromEnvironment, execCreateDatabase,
      handleCreateDatabaseError, GoError.asPgError, hm]
  · simp [NewDbClientFromEnvironment, getConfigFromEnvironment, execCreateDatabase,
      handleCreateDatabaseError, hm]

/-- C6: the create-database step accepts exactly two outcomes as success —
the statement succeeding, or failing with the "database already exists"
SQLSTATE 42P04 — while every other failure of that statement propagates
(wrapped) to the caller; consequently constructing a client twice against an
already-initialized server succeeds both times. -/
theorem C6_create_database_idempotent (env : String → Option String) :
    (handleCreateDatabaseError none = .ok ()) ∧
    (∀ e, e.asPgError = some "42P04" → handleCreateDatabaseError (some e) = .ok ()) ∧
    (∀ e, e.asPgError ≠ some "42P04" →
        handleCreateDatabaseError (some e)
          = .error (GoError.wrapped "failed to create postgres database" e)) ∧
    (∀ databases, ∃ databases2 databases3,
        NewDbClientFromEnvironment env none none databases none = .ok databases2 ∧
        NewDbClientFromEnvironment env none none databases2 none = .ok databases3) := by
  refine ⟨rfl, ?_, ?_, ?_⟩
  · intro e he
    simp [handleCreateDatabaseError, he]
  · intro e he
    simp [handleCreateDatabaseError, he]
  · intro databases
    by_cases hm : (envLookup env "STATUSPHERE_POSTGRES_DATABASE" "POSTGRES_DATABASE") ∈ databases
    · refine ⟨databases, databases, ?_, ?_⟩
      · rw [NewDbClient_healthy_ok env databases, if_pos hm]
      · rw [NewDbClient_healthy_ok env databases, if_pos hm]
    · refine ⟨databases ++ [envLookup env "STATUSPHERE_POSTGRES_DATABASE" "POSTGRES_DATABASE"],
        databases ++ [envLookup env "STATUSPHERE_POSTGRES_DATABASE" "POSTGRES_DATABASE"], ?_, ?_⟩
      · rw [NewDbClient_healthy_ok env databases, if_neg hm]
      · rw [NewDbClient_healthy_ok env _, if_pos (by simp)]

/-- C6 witness: a concrete 42P04 outcome and a concrete double construction. -/
theorem C6_create_database_idempotent_witness :
    handleCreateDatabaseError (some (GoError.pgError "42P04")) = .ok () ∧
      ∃ d2 d3, NewDbClientFromEnvironment (fun _ => none) none none [] none = .ok d2 ∧
        NewDbClientFromEnvironment (fun _ => none) none none d2 none = .ok d3 := by
  obtain ⟨-, h2, -, h4⟩ := C6_create_database_idempotent (fun _ => none)
  exact ⟨h2 _ rfl, h4 []⟩

/-- C7: `UpdateStatusPage` updates the rows whose url equals `page.URL`,
assigning exactly the non-zero fields of `page` and leaving zero-valued
fields of the matched rows unchanged; rows with a different url are untouched;
matching zero rows succeeds, leaves the table unchanged, and creates no
row. -/
theorem C7_update_non_zero_fields_no_upsert
    (ctx : Context) (table : List StatusPage) (page : StatusPage) :
    ∃ t', UpdateStatusPage ctx .none table page = .ok t' ∧
      t'.length = table.length ∧
      ((∀ r, r ∈ table → r.URL ≠ page.URL) → t' = table) ∧
      List.Forall₂ (fun r r' =>
        (r.URL ≠ page.URL → r' = r) ∧
        (r.URL = page.URL →
          r'.URL = r.URL ∧
          (page.Name = "" → r'.Name = r.Name) ∧
          (page.Name ≠ "" → r'.Name = page.Name) ∧
          (page.LastChecked = "" → r'.LastChecked = r.LastChecked) ∧
          (page.LastChecked ≠ "" → r'.LastChecked = page.LastChecked)))
        table t' := by
  refine ⟨_, rfl, List.length_map table _, ?_, ?_⟩
  · intro h
    have hid : ∀ r ∈ table,
        (if r.URL == page.URL then updatesNonZero r page else r) = r := by
      intro r hr
      rw [if_neg (by simpa using h r hr)]
    rw [List.map_congr_left hid]
    exact List.map_id' table
  · rw [List.forall₂_map_right_iff, List.forall₂_same]
    intro r hr
    by_cases hu : r.URL = page.URL
    · rw [if_pos (by simpa using hu)]
      refine ⟨fun hne => absurd hu hne, fun _ => ⟨?_, ?_, ?_, ?_, ?_⟩⟩
      · by_cases h0 : page.URL = ""
        · simp [updatesNonZero, h0]
        · simp [updatesNonZero, h0, hu]
      · intro h0; simp [updatesNonZero, h0]
      · intro h0; simp [updatesNonZero, h0]
      · intro h0; simp [updatesNonZero, h0]
      · intro h0; simp [updatesNonZero, h0]
    · rw [if_neg (by simpa using hu)]
      exact ⟨fun _ => rfl, fun heq => absurd heq hu⟩

/-- C7 witness: matching zero rows returns success on the unchanged table. -/
theorem C7_update_witness :
    UpdateStatusPage ⟨false⟩ .none [] (StatusPage.mk "u" "n" "") = .ok [] := by
  obtain ⟨t', hok, -, hid, -⟩ :=
    C7_update_non_zero_fields_no_upsert ⟨false⟩ [] (StatusPage.mk "u" "n" "")
  rw [hok, hid (fun r hr _ => absurd hr (List.not_mem_nil r))]

/-- C8: `AutoMigrate` ignores the create-schema outcome entirely, returns a
status_page migration failure wrapped with that table's name, returns an
incidents migration failure wrapped with that table's name, and returns nil
exactly when both table steps succeed. -/
theorem C8_automigrate_wraps_table_failures (ctx : Context) :
    (∀ s1 s2 a b, AutoMigrate ctx s1 a b = AutoMigrate ctx s2 a b) ∧
    (∀ s e b, AutoMigrate ctx s (some e) b
        = some (GoError.wrapped "failed to auto-migrate status_page table" e)) ∧
    (∀ s e, AutoMigrate ctx s none (some e)
        = some (GoError.wrapped "failed to auto-migrate incidents table" e)) ∧
    (∀ s a b, AutoMigrate ctx s a b = none ↔ a = none ∧ b = none) := by
  refine ⟨fun _ _ _ _ => rfl, fun _ _ _ => rfl, fun _ _ => rfl, ?_⟩
  intro s a b
  cases a <;> cases b <;> simp [AutoMigrate]

/-- C8 witness: a failing create-schema step is ignored and the call still
returns nil when both table migrations succeed. -/
theorem C8_automigrate_witness :
    AutoMigrate ⟨false⟩ (some (GoError.other "schema failed")) none none = none :=
  ((C8_automigrate_wraps_table_failures ⟨false⟩).2.2.2
      (some (GoError.other "schema failed")) none none).mpr ⟨rfl, rfl⟩

/-- C9 counterexample: operations under an already-cancelled context still
run the round-trip to completion and return a normal result — both a read
and the upsert — so the claim that every operation cancels the underlying
round-trip when the calling context is cancelled fails. -/
theorem C9_counterexample_cancelled_context_ignored :
    GetStatusPage ⟨true⟩ .none [StatusPage.mk "u" "n" "c"] "u"
        = .ok (StatusPage.mk "u" "n" "c") ∧
      CreateOrUpdateIncidents ⟨true⟩ .none []
          [Incident.mk "dl" "t" "c" "e" "s" "f" "d" "i" "u"]
        = .ok [Incident.mk "dl" "t" "c" "e" "s" "f" "d" "i" "u"] ∧
      ¬ (∀ (ctx : Context) fail (table : List StatusPage) url,
          ctx.cancelled = true → ∃ e, GetStatusPage ctx fail table url = .error e) := by
  refine ⟨rfl, by rfl, ?_⟩
  intro h
  obtain ⟨e, he⟩ := h ⟨true⟩ .none [StatusPage.mk "u" "n" "c"] "u" rfl
  rw [show GetStatusPage ⟨true⟩ .none [StatusPage.mk "u" "n" "c"] "u"
      = .ok (StatusPage.mk "u" "n" "c") from rfl] at he
  exact Except.noConfusion he

/-- C9 (amended): every operation takes a context argument but never
forwards it to the database handle, so its result is entirely independent of
the supplied context; cancelling the calling context therefore has no effect
on the underlying round-trip. -/
theorem C9_amended_context_ignored (ctx1 ctx2 : Context) (fail : Option GoError) :
    (∀ spTable, GetAllStatusPages ctx1 fail spTable = GetAllStatusPages ctx2 fail spTable) ∧
    (∀ spTable url, GetStatusPage ctx1 fail spTable url
        = GetStatusPage ctx2 fail spTable url) ∧
    (∀ spTable page, UpdateStatusPage ctx1 fail spTable page
        = UpdateStatusPage ctx2 fail spTable page) ∧
    (∀ spTable page, InsertStatusPage ctx1 fail spTable page
        = InsertStatusPage ctx2 fail spTable page) ∧
    (∀ incTable url, GetIncidents ctx1 fail incTable url
        = GetIncidents ctx2 fail incTable url) ∧
    (∀ incTable incidents, CreateOrUpdateIncidents ctx1 fail incTable incidents
        = CreateOrUpdateIncidents ctx2 fail incTable incidents) ∧
    (∀ s a b, AutoMigrate ctx1 s a b = AutoMigrate ctx2 s a b) :=
  ⟨fun _ => rfl, fun _ _ => rfl, fun _ _ => rfl, fun _ _ => rfl, fun _ _ => rfl,
    fun _ _ => rfl, fun _ _ _ => rfl⟩

/-- C9 witness for the amended claim: cancelled and live contexts agree at a
concrete input. -/
theorem C9_amended_context_ignored_witness :
    GetAllStatusPages ⟨true⟩ .none [] = GetAllStatusPages ⟨false⟩ .none [] :=
  (C9_amended_context_ignored ⟨true⟩ ⟨false⟩ .none).1 []

/-- C10: `CreateOrUpdateIncidents` on an empty batch fails with gorm's
empty-slice error rather than succeeding as a no-op, and success is possible
only for a non-empty batch. -/
theorem C10_empty_batch_rejected
    (ctx : Context) (fail : Option GoError) (table : List Incident) :
    CreateOrUpdateIncidents ctx fail table [] = .error GoError.emptySlice ∧
    (∀ incidents t', CreateOrUpdateIncidents ctx fail table incidents = .ok t' →
        incidents ≠ []) := by
  refine ⟨rfl, ?_⟩
  intro incidents t' hok hnil
  subst hnil
  exact Except.noConfusion hok

/-- C10 witness at concrete inputs. -/
theorem C10_empty_batch_rejected_witness :
    CreateOrUpdateIncidents ⟨false⟩ .none [] [] = .error GoError.emptySlice :=
  (C10_empty_batch_rejected ⟨false⟩ .none []).1

end Db
end Statusphere
